import Mathlib

/-!
Verification of the delegate-subclass registration and trampoline dispatch
mechanism of the cacao textview module.

The embedding models the relevant parts of the repository:
  - src/textview/appkit.rs : the trampolines and the two class registration
    functions (register_textview_class, register_textview_class_with_delegate);
  - src/textview/mod.rs    : the TextView wrapper (init, with, clone_as_handle,
    set_background_color, Drop);
  - src/textview/traits.rs : the TextViewDelegate trait with its defaults.

The Objective-C runtime is modelled as an explicit state: a table of declared
classes, a heap of native objects (each carrying a write log of its instance
variables), and a heap of boxed delegate instances.  Delegate callback
invocations are recorded as traces on the delegate record, and a callback of
the notification kind (`text_did_change`) may fail, modelling a Rust panic in
the user behavior, via `Except`.
-/

namespace Cacao

/-- Ivar name `cacaoBackgroundColor` (src/textview/mod.rs line 66). -/
def BACKGROUND_COLOR : String := "cacaoBackgroundColor"

/-- Ivar name `rstViewDelegatePtr` (src/textview/mod.rs line 67): the
CallbackSlot holding the address of the boxed delegate as a usize. -/
def TEXTVIEW_DELEGATE_PTR : String := "rstViewDelegatePtr"

/-- The Objective-C BOOL sentinel for true. -/
def YES : Int := 1

/-- The Objective-C BOOL sentinel for false. -/
def NO : Int := 0

/-- Identifiers for the trampoline functions defined in
src/textview/appkit.rs; a method table entry names the trampoline installed
for a selector. -/
inductive Trampoline where
  | updateLayer
  | textDidChange
  | textShouldBeginEditing
deriving DecidableEq, Repr

/-- A class declared with the host runtime: its name, its superclass, the
ivars added by the `ClassDecl`, and the (selector, trampoline) method table. -/
structure RTClass where
  name : String
  superclass : String
  ivars : List String
  methods : List (String × Trampoline)
deriving DecidableEq, Repr

/-- The host runtime's dynamic class system together with the one-time
initialization barrier of `register_textview_class` (the `static INIT: Once`
and `static mut TEXTVIEW_CLASS` pair in src/textview/appkit.rs). A class
token is an index into `classes`. `textviewOnce = some tk` means the `Once`
has run and the static holds token `tk`. -/
structure Runtime where
  classes : List RTClass
  textviewOnce : Option Nat
deriving DecidableEq, Repr

/-- Index of the class with the given name in the runtime class table, if
declared. -/
def findClassIdx : List RTClass → String → Option Nat
  | [], _ => none
  | c :: cs, n => if c.name = n then some 0 else (findClassIdx cs n).map (· + 1)

def Runtime.findClass (rt : Runtime) (n : String) : Option Nat :=
  findClassIdx rt.classes n

/-- Model of `ClassDecl::register()`: append the finished declaration to the runtime
class table and hand back its token. -/
def Runtime.declareClass (rt : Runtime) (c : RTClass) : Nat × Runtime :=
  (rt.classes.length, { rt with classes := rt.classes ++ [c] })

/-- A user behavior implementing the `TextViewDelegate` trait
(src/textview/traits.rs): the associated `NAME` constant and the two
overridable callbacks the trampolines forward to.  `text_did_change` returns
`Except`: an `error` models the user callback panicking. -/
structure DelegateSpec where
  NAME : String
  text_should_begin_editing : String → Bool
  text_did_change : String → Except String Unit

/-- Trait getter `subclass_name` (src/textview/traits.rs lines 20-22). -/
def DelegateSpec.subclass_name (d : DelegateSpec) : String := d.NAME

/-- Default body of `TextViewDelegate::text_should_begin_editing`
(src/textview/traits.rs lines 33-35): always `true`. -/
def default_text_should_begin_editing (_value : String) : Bool := true

/-- Default body of `TextViewDelegate::text_did_change`
(src/textview/traits.rs line 30): empty body, returns normally. -/
def default_text_did_change (_value : String) : Except String Unit := Except.ok ()

/-- A delegate that overrides nothing: every callback keeps its trait
default. -/
def DelegateSpec.withDefaults (name : String) : DelegateSpec :=
  { NAME := name
    text_should_begin_editing := default_text_should_begin_editing
    text_did_change := default_text_did_change }

/-- The TextView wrapper struct (src/textview/mod.rs lines 69-129), reduced
to the fields the claims are about: the handle flag, the retained pointer to
the native object (`objc`), the owned boxed delegate (`delegate`, an address
into the delegate heap), and the view the layout anchors were built from
(`anchorsView`, standing for the top/leading/.../center anchor family, all of
which anchor the same native view). -/
structure TextView where
  is_handle : Bool
  objc : Nat
  delegate : Option Nat
  anchorsView : Nat
deriving DecidableEq, Repr

/-- A live boxed delegate instance, together with the trace of callback
invocations it has received: the handles passed to `did_load` and the strings
passed to `text_did_change`. -/
structure DelegateRecord where
  spec : DelegateSpec
  didLoadCalls : List TextView
  textChanges : List String

/-- A native object instance: its class token, the write log of its ivars
(newest last; the current value of an ivar is its last write), its current
text contents (`stringValue`), and its superview, if attached. -/
structure NativeObject where
  klass : Nat
  ivarWrites : List (String × Nat)
  strValue : String
  superview : Option Nat

/-- Model of `set_ivar`: append a write to the log. -/
def NativeObject.set_ivar (o : NativeObject) (k : String) (v : Nat) : NativeObject :=
  { o with ivarWrites := o.ivarWrites ++ [(k, v)] }

/-- Model of `get_ivar`: the last value written under `k`, if any. -/
def NativeObject.get_ivar (o : NativeObject) (k : String) : Option Nat :=
  (o.ivarWrites.reverse.find? (fun p => p.1 = k)).map Prod.snd

/-- How many times ivar `k` has ever been written on this object. -/
def NativeObject.ivarWriteCount (o : NativeObject) (k : String) : Nat :=
  (o.ivarWrites.filter (fun p => p.1 = k)).length

/-- The whole world: the runtime class table, the native object heap
(addresses are indices; objects are never deallocated within the scope of the
claims), and the Rust heap of boxed delegates (`none` marks a freed box). -/
structure World where
  rt : Runtime
  objects : List NativeObject
  delegates : List (Option DelegateRecord)

def World.modifyObject (w : World) (i : Nat) (f : NativeObject → NativeObject) : World :=
  match w.objects.get? i with
  | some o => { w with objects := w.objects.set i (f o) }
  | none => w

def World.modifyDelegate (w : World) (i : Nat) (f : DelegateRecord → DelegateRecord) : World :=
  match w.delegates.get? i with
  | some (some r) => { w with delegates := w.delegates.set i (some (f r)) }
  | _ => w

/-- Model of `msg_send![class, new]`: allocate a fresh native object of the given
class with no ivar writes, empty string contents and no superview. -/
def World.newObject (w : World) (cls : Nat) : Nat × World :=
  (w.objects.length,
   { w with objects := w.objects ++ [{ klass := cls, ivarWrites := [], strValue := "", superview := none }] })

/-- Model of `Box::new(delegate)`: place a fresh delegate record on the Rust heap and
return its (stable) address. -/
def World.allocDelegate (w : World) (d : DelegateSpec) : Nat × World :=
  (w.delegates.length,
   { w with delegates := w.delegates ++ [some { spec := d, didLoadCalls := [], textChanges := [] }] })

/-- Dropping the `Box<T>` holding the delegate: the record at that address is
freed. -/
def World.freeDelegate (w : World) (i : Nat) : World :=
  { w with delegates := w.delegates.set i none }

/-- The host runtime mutating a text view's string (a user edit); the native
side of a `textDidChange:` notification. -/
def World.setStrValue (w : World) (i : Nat) (s : String) : World :=
  w.modifyObject i (fun o => { o with strValue := s })

/-- The host runtime attaching the view to a superview (`addSubview:`). -/
def World.setSuperview (w : World) (i sv : Nat) : World :=
  w.modifyObject i (fun o => { o with superview := some sv })

/-- Invoking `did_load` on the boxed delegate at `addr` with handle `h`; the
invocation is recorded on the delegate record's trace. -/
def World.invoke_did_load (w : World) (addr : Nat) (h : TextView) : World :=
  w.modifyDelegate addr (fun r => { r with didLoadCalls := r.didLoadCalls ++ [h] })

/-- Embedding of `register_textview_class` (src/textview/appkit.rs lines 48-62): a
`Once`-guarded declaration of the delegate-free subclass `RSTTextView` of
`NSTextView`, carrying only the `BACKGROUND_COLOR` ivar and no methods.
Returns `none` when the `ClassDecl::new(..).unwrap()` fails because the name
is already taken outside the barrier (fatal abort). -/
def register_textview_class (w : World) : Option (Nat × World) :=
  match w.rt.textviewOnce with
  | some tk => some (tk, w)
  | none =>
      if (w.rt.findClass "RSTTextView").isSome then none
      else
        let p := w.rt.declareClass
          { name := "RSTTextView", superclass := "NSTextView"
            ivars := [BACKGROUND_COLOR], methods := [] }
        some (p.1, { w with rt := { p.2 with textviewOnce := some p.1 } })

/-- Modelled from the spec: `load_or_register_class` (crate::foundation, not
under src/) — the process-wide subclass registry of section 4.1: look the
subclass name up in the host runtime's class table; when present, return the
existing class token; otherwise run the declaration (here passed as the ivar
list and method table the closure would install) exactly once and register
it. Idempotent, keyed by name. -/
def load_or_register_class (w : World) (superclass name : String)
    (ivars : List String) (methods : List (String × Trampoline)) : Nat × World :=
  match w.rt.findClass name with
  | some idx => (idx, w)
  | none =>
      let p := w.rt.declareClass { name := name, superclass := superclass, ivars := ivars, methods := methods }
      (p.1, { w with rt := p.2 })

/-- Embedding of `register_textview_class_with_delegate` (src/textview/appkit.rs lines
66-75): register (once per `subclass_name`) an `NSTextView` subclass with the
`TEXTVIEW_DELEGATE_PTR` and `BACKGROUND_COLOR` ivars and a single method,
installing the `text_did_change` trampoline for selector `textDidChange:`. -/
def register_textview_class_with_delegate (w : World) (inst : DelegateSpec) : Nat × World :=
  load_or_register_class w "NSTextView" inst.subclass_name
    [TEXTVIEW_DELEGATE_PTR, BACKGROUND_COLOR]
    [("textDidChange:", Trampoline.textDidChange)]

/-- Modelled from the spec: `utils::load` (not under src/) — recover the
CallbackSlot contents from a native object: read the ivar holding the
delegate address (section 4.2: on a callback firing, recover the owning
BehaviorHandle from the CallbackSlot). -/
def load (w : World) (this : Nat) (ptrName : String) : Option Nat := do
  let o ← w.objects.get? this
  o.get_ivar ptrName

/-- Resolve a delegate heap address to the live record stored there. -/
def World.delegateAt (w : World) (addr : Nat) : Option DelegateRecord :=
  (w.delegates.get? addr).bind id

/-- The `text_did_change` trampoline (src/textview/appkit.rs lines 28-32):
load the delegate from the CallbackSlot, read the view's `stringValue`, and
invoke `text_did_change` on it directly. The invocation, when the callback
returns normally, is recorded on the delegate's trace; an `error` from the
callback (a user panic) is not caught and escapes the trampoline. `none`
models the undefined behavior of a dangling slot, impossible for views built
by `TextView.with_delegate`. -/
def text_did_change_tramp (w : World) (this : Nat) : Option (Except String World) := do
  let addr ← load w this TEXTVIEW_DELEGATE_PTR
  let r ← w.delegateAt addr
  let o ← w.objects.get? this
  match r.spec.text_did_change o.strValue with
  | Except.error msg => some (Except.error msg)
  | Except.ok _ =>
      some (Except.ok (w.modifyDelegate addr (fun rr => { rr with textChanges := rr.textChanges ++ [o.strValue] })))

/-- The `text_should_begin_editing` trampoline (src/textview/appkit.rs lines
34-42): load the delegate from the CallbackSlot, read the view's
`stringValue`, ask the behavior, and map `true` to `YES` and `false` to
`NO`. -/
def text_should_begin_editing_tramp (w : World) (this : Nat) : Option Int := do
  let addr ← load w this TEXTVIEW_DELEGATE_PTR
  let r ← w.delegateAt addr
  let o ← w.objects.get? this
  some (if r.spec.text_should_begin_editing o.strValue then YES else NO)

/-- Embedding of `TextView::init` (src/textview/mod.rs lines 143-193): build the wrapper
for a freshly created native view: not a handle, no delegate yet, layout
anchors all built from the view, `objc` retaining the view. -/
def TextView.init (view : Nat) : TextView :=
  { is_handle := false, objc := view, delegate := none, anchorsView := view }

/-- Embedding of `TextView::clone_as_handle` (src/textview/mod.rs lines 231-271): a clone
sans delegate, flagged as a handle, sharing the same native object and
anchors. -/
def TextView.clone_as_handle (tv : TextView) : TextView :=
  { is_handle := true, objc := tv.objc, delegate := none, anchorsView := tv.anchorsView }

/-- Embedding of `TextView::with` (src/textview/mod.rs lines 207-223): register (or look
up) the subclass for the delegate's type name, box the delegate, create the
native object, write the box address into the CallbackSlot, build the
wrapper (anchors included), call `did_load` with a handle clone, then store
the box in the wrapper and return it.  (Named `with_delegate` because `with`
is reserved in Lean.) -/
def TextView.with_delegate (d : DelegateSpec) (w : World) : TextView × World :=
  let pc := register_textview_class_with_delegate w d
  let pd := pc.2.allocDelegate d
  let pv := pd.2.newObject pc.1
  let w4 := pv.2.modifyObject pv.1 (fun o => o.set_ivar TEXTVIEW_DELEGATE_PTR pd.1)
  let tv := TextView.init pv.1
  let w5 := w4.invoke_did_load pd.1 tv.clone_as_handle
  ({ tv with delegate := some pd.1 }, w5)

/-- Embedding of `TextView::set_background_color` (src/textview/mod.rs lines 274-286,
appkit branch): write the color into the `BACKGROUND_COLOR` ivar of the
native object. -/
def TextView.set_background_color (tv : TextView) (color : Nat) (w : World) : World :=
  w.modifyObject tv.objc (fun o => o.set_ivar BACKGROUND_COLOR color)

/-- Modelled from the spec: `Layout::remove_from_superview` (crate::layout,
not under src/) — detach the native view from its superview (the removal the
owning wrapper's drop performs). -/
def TextView.remove_from_superview (tv : TextView) (w : World) : World :=
  w.modifyObject tv.objc (fun o => { o with superview := none })

/-- Embedding of `Drop for TextView` (src/textview/mod.rs lines 301-315) together with the
implicit field drop Rust performs afterwards: when the instance is not a
handle, remove the native view from its superview; then the `delegate` field
(an `Option<Box<T>>`) drops, freeing the boxed delegate when present. -/
def TextView.drop (tv : TextView) (w : World) : World :=
  let w1 := if tv.is_handle then w else tv.remove_from_superview w
  match tv.delegate with
  | some addr => w1.freeDelegate addr
  | none => w1

/-- A world with nothing registered or allocated. -/
def emptyWorld : World :=
  { rt := { classes := [], textviewOnce := none }, objects := [], delegates := [] }

/-- A concrete delegate in the style of the `ConsoleLogger` of
examples/text_view.rs: permits an edit unless the current value is empty, and
never fails in `text_did_change`. -/
def loggerSpec : DelegateSpec :=
  { NAME := "Logger"
    text_should_begin_editing := fun s => decide (s ≠ "")
    text_did_change := fun _ => Except.ok () }

/-- The world after `register_textview_class` has run once from scratch. -/
def rstWorld : World :=
  { rt := { classes := [{ name := "RSTTextView", superclass := "NSTextView"
                          ivars := [BACKGROUND_COLOR], methods := [] }]
            textviewOnce := some 0 }
    objects := [], delegates := [] }

/-- A delegate whose `text_did_change` callback fails (models a user behavior
that panics during the notification). -/
def boomSpec : DelegateSpec :=
  { NAME := "Boom"
    text_should_begin_editing := fun _ => true
    text_did_change := fun _ => Except.error "boom" }

/-- The observable state of the CallbackSlot of one native object: its
current contents and how many times it has ever been written. -/
def NativeObject.slotState (o : NativeObject) : Option Nat × Nat :=
  (o.get_ivar TEXTVIEW_DELEGATE_PTR, o.ivarWriteCount TEXTVIEW_DELEGATE_PTR)

/-- The CallbackSlot state of the object at address `i`. -/
def World.slotStateAt (w : World) (i : Nat) : Option (Option Nat × Nat) :=
  (w.objects.get? i).map NativeObject.slotState

/-- A concrete view built with `loggerSpec` from the empty world. -/
def fixView : TextView := (TextView.with_delegate loggerSpec emptyWorld).1

/-- The world after building `fixView`. -/
def fixWorld : World := (TextView.with_delegate loggerSpec emptyWorld).2

/-- The world `fixWorld` after the `text_did_change` trampoline has recorded the empty
string on the delegate. -/
def fixWorldLogged : World :=
  fixWorld.modifyDelegate 0 (fun r => { r with textChanges := r.textChanges ++ [""] })

/-- A concrete view built with `boomSpec` from the empty world. -/
def boomView : TextView := (TextView.with_delegate boomSpec emptyWorld).1

/-- The world after building `boomView`. -/
def boomWorld : World := (TextView.with_delegate boomSpec emptyWorld).2

/-- The world `fixWorld` after the user typed `x` into the view. -/
def fixWorldX : World := fixWorld.setStrValue fixView.objc "x"

/-- A second view built with the same behavior-type name, after `fixView`. -/
def fixView2 : TextView := (TextView.with_delegate loggerSpec fixWorld).1

/-- The world after building both `fixView` and `fixView2`. -/
def fixWorld2 : World := (TextView.with_delegate loggerSpec fixWorld).2

end Cacao

namespace Cacao

/-! ### List helper lemmas -/

theorem list_get_concat {α : Type} (l : List α) (x : α) :
    (l ++ [x]).get? l.length = some x := by
  induction l with
  | nil => rfl
  | cons a t ih => simp [ih]

theorem list_get_append_left {α : Type} (l l2 : List α) (i : Nat) (h : i < l.length) :
    (l ++ l2).get? i = l.get? i := by
  induction l generalizing i with
  | nil => exact absurd h (by simp)
  | cons a t ih =>
    cases i with
    | zero => rfl
    | succ n => simpa using ih n (by simpa using h)

theorem list_set_concat {α : Type} (l : List α) (x y : α) :
    (l ++ [x]).set l.length y = l ++ [y] := by
  induction l with
  | nil => rfl
  | cons a t ih => simp [ih]

theorem list_get_set_eq {α : Type} (l : List α) (i : Nat) (x : α) (h : i < l.length) :
    (l.set i x).get? i = some x := by
  induction l generalizing i with
  | nil => exact absurd h (by simp)
  | cons a t ih =>
    cases i with
    | zero => rfl
    | succ n => simpa using ih n (by simpa using h)

theorem list_get_set_ne {α : Type} (l : List α) (i j : Nat) (x : α) (h : i ≠ j) :
    (l.set i x).get? j = l.get? j := by
  induction l generalizing i j with
  | nil => rfl
  | cons a t ih =>
    cases i with
    | zero =>
      cases j with
      | zero => exact absurd rfl h
      | succ m => rfl
    | succ n =>
      cases j with
      | zero => rfl
      | succ m => simpa using ih n m (by omega)

theorem findClassIdx_found_append (l l2 : List RTClass) (n : String) (i : Nat)
    (h : findClassIdx l n = some i) : findClassIdx (l ++ l2) n = some i := by
  induction l generalizing i with
  | nil => simp [findClassIdx] at h
  | cons a t ih =>
    by_cases ha : a.name = n
    · simp [findClassIdx, ha] at h ⊢
      exact h
    · simp only [findClassIdx, ha, if_false, List.cons_append] at h ⊢
      obtain ⟨j, hj, rfl⟩ := Option.map_eq_some'.mp h
      exact Option.map_eq_some'.mpr ⟨j, ih j hj, rfl⟩

theorem findClassIdx_concat_self (l : List RTClass) (c : RTClass)
    (h : findClassIdx l c.name = none) :
    findClassIdx (l ++ [c]) c.name = some l.length := by
  induction l with
  | nil => simp [findClassIdx]
  | cons a t ih =>
    by_cases ha : a.name = c.name
    · simp [findClassIdx, ha] at h
    · simp only [findClassIdx, ha, if_false, Option.map_eq_none'] at h
      simp only [List.cons_append, List.append_eq, findClassIdx, ha, if_false, ih h,
        Option.map_some', List.length_cons]

theorem list_set_append_left {α : Type} (l l2 : List α) (i : Nat) (x : α) (h : i < l.length) :
    (l ++ l2).set i x = l.set i x ++ l2 := by
  induction l generalizing i with
  | nil => exact absurd h (by simp)
  | cons a t ih =>
    cases i with
    | zero => rfl
    | succ n => simpa using ih n (by simpa using h)

theorem list_get_set_of_get {α : Type} (l : List α) (k : Nat) (o x : α)
    (h : l.get? k = some o) : (l.set k x).get? k = some x := by
  induction l generalizing k with
  | nil => simp at h
  | cons a t ih =>
    cases k with
    | zero => rfl
    | succ n => simpa using ih n (by simpa using h)

theorem list_get_concat2 {α : Type} (l : List α) (x y : α) :
    ((l ++ [x]) ++ [y]).get? (l.length + 1) = some y := by
  simpa using list_get_concat (l ++ [x]) y

theorem list_get_concat2_left {α : Type} (l : List α) (x y : α) :
    ((l ++ [x]) ++ [y]).get? l.length = some x := by
  rw [list_get_append_left _ _ _ (by simp), list_get_concat]

theorem list_set_concat2_left {α : Type} (l : List α) (x y z : α) :
    ((l ++ [x]) ++ [y]).set l.length z = (l ++ [z]) ++ [y] := by
  rw [list_set_append_left _ _ _ _ (by simp), list_set_concat]

/-! ### Basic facts about the registry and the constructor -/

/-- When the behavior-type name is already in the class table,
`register_textview_class_with_delegate` returns the cached token and leaves
the world untouched. -/
theorem register_with_delegate_existing (w : World) (d : DelegateSpec) (i : Nat)
    (hfound : w.rt.findClass d.NAME = some i) :
    register_textview_class_with_delegate w d = (i, w) := by
  simp [register_textview_class_with_delegate, load_or_register_class,
    DelegateSpec.subclass_name, hfound]

/-- When the behavior-type name is fresh, the registration appends exactly
one class: the `NSTextView` subclass with the CallbackSlot and background
ivars and the single `textDidChange:` method. -/
theorem register_with_delegate_fresh (w : World) (d : DelegateSpec)
    (hfresh : w.rt.findClass d.NAME = none) :
    register_textview_class_with_delegate w d
      = (w.rt.classes.length,
         { w with rt := ⟨w.rt.classes
             ++ [RTClass.mk d.NAME "NSTextView" [TEXTVIEW_DELEGATE_PTR, BACKGROUND_COLOR]
                   [("textDidChange:", Trampoline.textDidChange)]],
             w.rt.textviewOnce⟩ }) := by
  simp [register_textview_class_with_delegate, load_or_register_class,
    DelegateSpec.subclass_name, hfresh, Runtime.declareClass]

/-- The registry only touches the class table: the object heap and delegate
heap pass through unchanged. -/
theorem register_with_delegate_preserves_heaps (w : World) (d : DelegateSpec) :
    (register_textview_class_with_delegate w d).2.objects = w.objects
    ∧ (register_textview_class_with_delegate w d).2.delegates = w.delegates := by
  match hfind : w.rt.findClass d.NAME with
  | some i => rw [register_with_delegate_existing w d i hfind]; exact ⟨rfl, rfl⟩
  | none => rw [register_with_delegate_fresh w d hfind]; exact ⟨rfl, rfl⟩

/-- Full characterization of `TextView.with_delegate`: the returned wrapper
owns the freshly boxed delegate and the fresh native object; the object's
only ivar write is the CallbackSlot holding the box address; the delegate
record carries exactly one `did_load` invocation, whose argument is the
handle clone of the wrapper, and no text changes yet. -/
theorem with_delegate_eq (d : DelegateSpec) (w : World) :
    TextView.with_delegate d w
      = (TextView.mk false w.objects.length (some w.delegates.length) w.objects.length,
         { rt := (register_textview_class_with_delegate w d).2.rt
           objects := w.objects
             ++ [NativeObject.mk (register_textview_class_with_delegate w d).1
                   [(TEXTVIEW_DELEGATE_PTR, w.delegates.length)] "" none]
           delegates := w.delegates
             ++ [some (DelegateRecord.mk d
                   [TextView.mk true w.objects.length none w.objects.length] [])] }) := by
  obtain ⟨hobj, hdel⟩ := register_with_delegate_preserves_heaps w d
  simp only [TextView.with_delegate, World.allocDelegate, World.newObject,
    World.modifyObject, World.invoke_did_load, World.modifyDelegate,
    TextView.init, TextView.clone_as_handle, NativeObject.set_ivar,
    hobj, hdel, list_get_concat, list_set_concat, List.nil_append]

/-- What the `text_did_change` trampoline does once the CallbackSlot chain
resolves: invoke the behavior on the view's string; on normal return record
the invocation, on failure let the failure escape. -/
theorem text_did_change_tramp_eq (w : World) (this addr : Nat)
    (r : DelegateRecord) (o : NativeObject)
    (hload : load w this TEXTVIEW_DELEGATE_PTR = some addr)
    (hr : w.delegateAt addr = some r)
    (ho : w.objects.get? this = some o) :
    text_did_change_tramp w this
      = some (match r.spec.text_did_change o.strValue with
              | Except.error msg => Except.error msg
              | Except.ok _ => Except.ok (w.modifyDelegate addr
                  (fun rr => { rr with textChanges := rr.textChanges ++ [o.strValue] }))) := by
  unfold text_did_change_tramp
  rw [hload]
  simp only [Option.bind_eq_bind, Option.some_bind, hr, ho]
  match r.spec.text_did_change o.strValue with
  | Except.error msg => rfl
  | Except.ok _ => rfl

/-- What the `text_should_begin_editing` trampoline does once the
CallbackSlot chain resolves: ask the behavior about the view's string and
map the boolean to the native sentinel. -/
theorem text_should_begin_editing_tramp_eq (w : World) (this addr : Nat)
    (r : DelegateRecord) (o : NativeObject)
    (hload : load w this TEXTVIEW_DELEGATE_PTR = some addr)
    (hr : w.delegateAt addr = some r)
    (ho : w.objects.get? this = some o) :
    text_should_begin_editing_tramp w this
      = some (if r.spec.text_should_begin_editing o.strValue then YES else NO) := by
  unfold text_should_begin_editing_tramp
  rw [hload]
  simp only [Option.bind_eq_bind, Option.some_bind, hr, ho]

/-- Writing any ivar other than the CallbackSlot leaves the slot state (value
and write count) unchanged. -/
theorem set_ivar_slotState_of_ne (o : NativeObject) (k : String) (v : Nat)
    (hk : k ≠ TEXTVIEW_DELEGATE_PTR) :
    (o.set_ivar k v).slotState = o.slotState := by
  unfold NativeObject.slotState NativeObject.set_ivar NativeObject.get_ivar
    NativeObject.ivarWriteCount
  simp [List.reverse_append, List.find?, List.filter_append, hk]

/-- Updating one object through a slot-state preserving function preserves
every object's slot state. -/
theorem modifyObject_slotState (w : World) (j : Nat) (f : NativeObject → NativeObject)
    (hf : ∀ o, (f o).slotState = o.slotState) (i : Nat) :
    (w.modifyObject j f).slotStateAt i = w.slotStateAt i := by
  unfold World.modifyObject World.slotStateAt
  match hj : w.objects.get? j with
  | none => rfl
  | some o =>
    by_cases hij : i = j
    · subst hij
      rw [list_get_set_of_get _ _ o (f o) hj, hj, Option.map_some', Option.map_some', hf]
    · rw [list_get_set_ne _ j i (f o) (fun hh => hij hh.symm)]

theorem setStrValue_concat2_left (rt : Runtime) (l : List NativeObject)
    (x y : NativeObject) (dl : List (Option DelegateRecord)) (s : String) :
    (World.mk rt ((l ++ [x]) ++ [y]) dl).setStrValue l.length s
      = World.mk rt ((l ++ [{ x with strValue := s }]) ++ [y]) dl := by
  unfold World.setStrValue World.modifyObject
  rw [list_get_concat2_left]
  show World.mk rt (((l ++ [x]) ++ [y]).set l.length { x with strValue := s }) dl = _
  rw [list_set_concat2_left]

theorem modifyDelegate_concat2_left (rt : Runtime) (l : List NativeObject)
    (dl : List (Option DelegateRecord)) (rA rB : DelegateRecord)
    (f : DelegateRecord → DelegateRecord) :
    (World.mk rt l ((dl ++ [some rA]) ++ [some rB])).modifyDelegate dl.length f
      = World.mk rt l ((dl ++ [some (f rA)]) ++ [some rB]) := by
  unfold World.modifyDelegate
  rw [list_get_concat2_left]
  show World.mk rt l (((dl ++ [some rA]) ++ [some rB]).set dl.length (some (f rA))) = _
  rw [list_set_concat2_left]

theorem delegateAt_concat2_left (rt : Runtime) (l : List NativeObject)
    (dl : List (Option DelegateRecord)) (x y : Option DelegateRecord) :
    (World.mk rt l ((dl ++ [x]) ++ [y])).delegateAt dl.length = x := by
  unfold World.delegateAt
  rw [show (World.mk rt l ((dl ++ [x]) ++ [y])).delegates = (dl ++ [x]) ++ [y] from rfl,
    list_get_concat2_left]
  rfl

theorem delegateAt_concat2 (rt : Runtime) (l : List NativeObject)
    (dl : List (Option DelegateRecord)) (x y : Option DelegateRecord) :
    (World.mk rt l ((dl ++ [x]) ++ [y])).delegateAt (dl.length + 1) = y := by
  unfold World.delegateAt
  rw [show (World.mk rt l ((dl ++ [x]) ++ [y])).delegates = (dl ++ [x]) ++ [y] from rfl,
    list_get_concat2]
  rfl

/-! ### Claim theorems -/

/-- Claim C1: for every behavior-type name, repeated calls to the subclass
registry (`register_textview_class`, and
`register_textview_class_with_delegate` for delegates with the same `NAME`)
return the identical class token, and the underlying host-runtime class
registration occurs exactly once, guarded by the one-time-initialization
barrier. -/
theorem registry_idempotent_and_registers_once (w w1 : World) (tk : Nat)
    (d d2 : DelegateSpec) (hname : d2.NAME = d.NAME)
    (hreg : register_textview_class w = some (tk, w1)) :
    register_textview_class w1 = some (tk, w1)
    ∧ (w.rt.textviewOnce = none → w1.rt.classes.length = w.rt.classes.length + 1)
    ∧ register_textview_class_with_delegate
        (register_textview_class_with_delegate w d).2 d2
      = register_textview_class_with_delegate w d
    ∧ (w.rt.findClass d.NAME = none →
        (register_textview_class_with_delegate w d).2.rt.classes.length
          = w.rt.classes.length + 1) := by
  refine ⟨?_, ?_, ?_, ?_⟩
  · match honce : w.rt.textviewOnce with
    | some c =>
      simp only [register_textview_class, honce] at hreg
      obtain ⟨rfl, rfl⟩ : c = tk ∧ w = w1 := by
        constructor <;> [exact congrArg Prod.fst (Option.some.injEq _ _ |>.mp hreg);
                        exact congrArg Prod.snd (Option.some.injEq _ _ |>.mp hreg)]
      simp [register_textview_class, honce]
    | none =>
      simp only [register_textview_class, honce] at hreg
      by_cases hc : (w.rt.findClass "RSTTextView").isSome
      · simp [hc] at hreg
      · simp only [hc, if_false, Option.some.injEq, Prod.mk.injEq] at hreg
        obtain ⟨rfl, rfl⟩ := hreg
        simp [register_textview_class, Runtime.declareClass]
  · intro honce
    simp only [register_textview_class, honce] at hreg
    by_cases hc : (w.rt.findClass "RSTTextView").isSome
    · simp [hc] at hreg
    · simp only [hc, if_false, Option.some.injEq, Prod.mk.injEq] at hreg
      obtain ⟨rfl, rfl⟩ := hreg
      simp [Runtime.declareClass]
  · match hfind : w.rt.findClass d.NAME with
    | some idx =>
      simp [register_textview_class_with_delegate, load_or_register_class,
        DelegateSpec.subclass_name, Runtime.findClass, hname] at hfind ⊢
      simp [hfind]
    | none =>
      simp only [register_textview_class_with_delegate, load_or_register_class,
        DelegateSpec.subclass_name, Runtime.findClass, hname] at hfind ⊢
      rw [hfind]
      have hself := findClassIdx_concat_self w.rt.classes
        (RTClass.mk d.NAME "NSTextView" [TEXTVIEW_DELEGATE_PTR, BACKGROUND_COLOR]
          [("textDidChange:", Trampoline.textDidChange)]) hfind
      simp [Runtime.declareClass, hself]
  · intro hfind
    simp only [Runtime.findClass] at hfind
    simp [register_textview_class_with_delegate, load_or_register_class,
      DelegateSpec.subclass_name, Runtime.findClass, hfind, Runtime.declareClass]

/-- Witness for C1 at a concrete input: registering from the empty world
returns token 0 and the singleton class table, and the theorem's conclusions
hold there. -/
theorem registry_idempotent_and_registers_once_witness :
    register_textview_class emptyWorld = some (0, rstWorld)
    ∧ (register_textview_class rstWorld = some (0, rstWorld)
        ∧ (emptyWorld.rt.textviewOnce = none →
            rstWorld.rt.classes.length = emptyWorld.rt.classes.length + 1)
        ∧ register_textview_class_with_delegate
            (register_textview_class_with_delegate emptyWorld loggerSpec).2 loggerSpec
          = register_textview_class_with_delegate emptyWorld loggerSpec
        ∧ (emptyWorld.rt.findClass loggerSpec.NAME = none →
            (register_textview_class_with_delegate emptyWorld loggerSpec).2.rt.classes.length
              = emptyWorld.rt.classes.length + 1)) :=
  ⟨rfl, registry_idempotent_and_registers_once emptyWorld rstWorld 0 loggerSpec loggerSpec rfl rfl⟩

/-- Claim C2 counterexample: the class generated by
`register_textview_class_with_delegate` for a concrete delegate does not
override the should-begin-edit selector at all — its method table holds the
single selector `textDidChange:`. -/
theorem delegate_class_lacks_should_begin_selector :
    ((register_textview_class_with_delegate emptyWorld loggerSpec).2.rt.classes.get?
        (register_textview_class_with_delegate emptyWorld loggerSpec).1).map
      (fun c => ((c.methods.map Prod.fst).contains "textShouldBeginEditing:",
                 c.methods.map Prod.fst))
      = some (false, ["textDidChange:"]) := by
  decide

/-- Claim C2 (amended): for a fresh behavior-type name, the generated class
declares the delegate-pointer callback slot (and the background-color ivar)
and overrides exactly one native callback selector, `textDidChange:`, with
the `text_did_change` trampoline specialized for the delegate type; the
`text_should_begin_editing` trampoline exists in the source but is not
installed on the class. -/
theorem delegate_class_slot_and_methods (w : World) (d : DelegateSpec)
    (hfresh : w.rt.findClass d.NAME = none) :
    ((register_textview_class_with_delegate w d).2.rt.classes.get?
        (register_textview_class_with_delegate w d).1)
      = some { name := d.NAME, superclass := "NSTextView",
               ivars := [TEXTVIEW_DELEGATE_PTR, BACKGROUND_COLOR],
               methods := [("textDidChange:", Trampoline.textDidChange)] } := by
  simp only [Runtime.findClass] at hfresh
  simp [register_textview_class_with_delegate, load_or_register_class,
    DelegateSpec.subclass_name, Runtime.findClass, hfresh, Runtime.declareClass,
    list_get_concat]

/-- Witness for the amended C2 at a concrete input. -/
theorem delegate_class_slot_and_methods_witness :
    emptyWorld.rt.findClass loggerSpec.NAME = none
    ∧ ((register_textview_class_with_delegate emptyWorld loggerSpec).2.rt.classes.get?
          (register_textview_class_with_delegate emptyWorld loggerSpec).1)
        = some { name := loggerSpec.NAME, superclass := "NSTextView",
                 ivars := [TEXTVIEW_DELEGATE_PTR, BACKGROUND_COLOR],
                 methods := [("textDidChange:", Trampoline.textDidChange)] } :=
  ⟨rfl, delegate_class_slot_and_methods emptyWorld loggerSpec rfl⟩

/-- Claim C7: the default, non-overridden
`TextViewDelegate::text_should_begin_editing` returns `true` for every input,
so a delegate that overrides nothing always permits the edit. -/
theorem default_should_begin_edit_always_permits (name value : String) :
    default_text_should_begin_editing value = true
    ∧ (DelegateSpec.withDefaults name).text_should_begin_editing value = true :=
  ⟨rfl, rfl⟩

/-- Claim C3: for every construction `TextView::with(delegate)`, `did_load`
is invoked exactly once before the wrapper is returned — in the returned
state the delegate record carries exactly one `did_load` invocation (and no
other trampoline has fired) — and its argument is a non-owning handle clone
(`is_handle = true`, `delegate = none`) referring to the same fully
constructed native object and layout anchors as the returned wrapper. -/
theorem with_delegate_calls_did_load_once (d : DelegateSpec) (w : World) :
    ∃ (addr : Nat) (r : DelegateRecord) (h : TextView),
      (TextView.with_delegate d w).1.delegate = some addr
      ∧ (TextView.with_delegate d w).2.delegateAt addr = some r
      ∧ r.spec = d
      ∧ r.didLoadCalls = [h]
      ∧ r.textChanges = []
      ∧ h.is_handle = true
      ∧ h.delegate = none
      ∧ h.objc = (TextView.with_delegate d w).1.objc
      ∧ h.anchorsView = (TextView.with_delegate d w).1.anchorsView
      ∧ ((TextView.with_delegate d w).2.objects.get? h.objc).isSome := by
  refine ⟨w.delegates.length,
    DelegateRecord.mk d [TextView.mk true w.objects.length none w.objects.length] [],
    TextView.mk true w.objects.length none w.objects.length, ?_⟩
  rw [with_delegate_eq]
  refine ⟨rfl, ?_, rfl, rfl, rfl, rfl, rfl, rfl, rfl, ?_⟩
  · show World.delegateAt _ _ = _
    unfold World.delegateAt
    rw [show (World.mk (register_textview_class_with_delegate w d).2.rt _ _).delegates
          = w.delegates ++ [some (DelegateRecord.mk d
              [TextView.mk true w.objects.length none w.objects.length] [])] from rfl,
      list_get_concat]
    rfl
  · show (Option.isSome _) = true
    rw [show (World.mk (register_textview_class_with_delegate w d).2.rt _ _).objects
          = w.objects ++ [NativeObject.mk (register_textview_class_with_delegate w d).1
              [(TEXTVIEW_DELEGATE_PTR, w.delegates.length)] "" none] from rfl,
      list_get_concat]
    rfl

/-- Claim C4: the CallbackSlot (`TEXTVIEW_DELEGATE_PTR` ivar) is written
exactly once, during construction, holding the box address the wrapper owns;
no operation offered by the wrapper (`set_background_color`, dropping a
wrapper, a `text_did_change` trampoline firing) changes its value or its
write count afterward; and both trampolines recover the delegate by reading
that slot — when the slot was never written they cannot resolve a
delegate at all. -/
theorem callback_slot_written_once_then_immutable (d : DelegateSpec) (w : World) :
    ((TextView.with_delegate d w).2.slotStateAt (TextView.with_delegate d w).1.objc
        = some ((TextView.with_delegate d w).1.delegate, 1))
    ∧ (∀ (tv : TextView) (c : Nat) (w2 : World) (i : Nat),
        (tv.set_background_color c w2).slotStateAt i = w2.slotStateAt i)
    ∧ (∀ (tv : TextView) (w2 : World) (i : Nat),
        (TextView.drop tv w2).slotStateAt i = w2.slotStateAt i)
    ∧ (∀ (w2 w3 : World) (this : Nat),
        text_did_change_tramp w2 this = some (Except.ok w3) →
        ∀ i, w3.slotStateAt i = w2.slotStateAt i)
    ∧ (∀ (w2 : World) (this : Nat),
        load w2 this TEXTVIEW_DELEGATE_PTR = none →
          text_did_change_tramp w2 this = none
          ∧ text_should_begin_editing_tramp w2 this = none) := by
  refine ⟨?_, ?_, ?_, ?_, ?_⟩
  · rw [with_delegate_eq]
    show (Option.map _ _) = _
    rw [show (World.mk (register_textview_class_with_delegate w d).2.rt _ _).objects
          = w.objects ++ [NativeObject.mk (register_textview_class_with_delegate w d).1
              [(TEXTVIEW_DELEGATE_PTR, w.delegates.length)] "" none] from rfl,
      list_get_concat]
    simp [NativeObject.slotState, NativeObject.get_ivar, NativeObject.ivarWriteCount,
      List.find?, List.filter]
  · intro tv c w2 i
    exact modifyObject_slotState w2 tv.objc _
      (fun o => set_ivar_slotState_of_ne o BACKGROUND_COLOR c (by decide)) i
  · intro tv w2 i
    unfold TextView.drop
    have hrem : ∀ (w3 : World),
        (TextView.remove_from_superview tv w3).slotStateAt i = w3.slotStateAt i :=
      fun w3 => modifyObject_slotState w3 tv.objc
        (fun o => { o with superview := none }) (fun o => rfl) i
    have hfree : ∀ (w3 : World) (a : Nat),
        (w3.freeDelegate a).slotStateAt i = w3.slotStateAt i := fun w3 a => rfl
    cases htv : tv.delegate with
    | none => cases hh : tv.is_handle <;> simp [hrem]
    | some a => cases hh : tv.is_handle <;> simp [hfree, hrem]
  · intro w2 w3 this htr i
    match hload : load w2 this TEXTVIEW_DELEGATE_PTR with
    | none =>
      unfold text_did_change_tramp at htr
      rw [hload] at htr
      simp at htr
    | some addr =>
      match hr : w2.delegateAt addr with
      | none =>
        unfold text_did_change_tramp at htr
        rw [hload] at htr
        simp only [Option.bind_eq_bind, Option.some_bind, hr, Option.none_bind] at htr
        exact Option.noConfusion htr
      | some r =>
        match ho : w2.objects.get? this with
        | none =>
          unfold text_did_change_tramp at htr
          rw [hload] at htr
          simp only [Option.bind_eq_bind, Option.some_bind, hr, ho, Option.none_bind] at htr
          exact Option.noConfusion htr
        | some o =>
          rw [text_did_change_tramp_eq w2 this addr r o hload hr ho] at htr
          match hres : r.spec.text_did_change o.strValue with
          | Except.error msg => rw [hres] at htr; simp at htr
          | Except.ok _ =>
            rw [hres] at htr
            simp only [Option.some_inj, Except.ok.injEq] at htr
            subst htr
            unfold World.modifyDelegate
            match w2.delegates.get? addr with
            | none => rfl
            | some none => rfl
            | some (some rr) => rfl
  · intro w2 this hload
    constructor
    · unfold text_did_change_tramp
      rw [hload]
      rfl
    · unfold text_should_begin_editing_tramp
      rw [hload]
      rfl

/-- Witness for C4: in the concrete logger world the trampoline hypothesis of
the frame conjunct is satisfiable and the slot survives the firing. -/
theorem callback_slot_witness :
    text_did_change_tramp fixWorld 0 = some (Except.ok fixWorldLogged)
    ∧ fixWorldLogged.slotStateAt 0 = fixWorld.slotStateAt 0 :=
  ⟨rfl, (callback_slot_written_once_then_immutable loggerSpec emptyWorld).2.2.2.1
      fixWorld fixWorldLogged 0 rfl 0⟩

/-- Claim C6: for every delegate and current text value, the
should-begin-edit trampoline answers the native `YES` sentinel exactly when
the delegate's `text_should_begin_editing` on the view's string returns
`true`, and `NO` when it returns `false`. -/
theorem should_begin_tramp_matches_delegate (d : DelegateSpec) (w : World)
    (this addr : Nat) (o : NativeObject) (r : DelegateRecord)
    (ho : w.objects.get? this = some o)
    (hslot : o.get_ivar TEXTVIEW_DELEGATE_PTR = some addr)
    (hr : w.delegateAt addr = some r)
    (hspec : r.spec = d) :
    text_should_begin_editing_tramp w this
      = some (if d.text_should_begin_editing o.strValue then YES else NO)
    ∧ (d.text_should_begin_editing o.strValue = true →
        text_should_begin_editing_tramp w this = some YES)
    ∧ (d.text_should_begin_editing o.strValue = false →
        text_should_begin_editing_tramp w this = some NO) := by
  have hload : load w this TEXTVIEW_DELEGATE_PTR = some addr := by
    unfold load
    rw [ho]
    simp only [Option.bind_eq_bind, Option.some_bind]
    exact hslot
  have h1 := text_should_begin_editing_tramp_eq w this addr r o hload hr ho
  rw [hspec] at h1
  refine ⟨h1, fun hb => ?_, fun hb => ?_⟩
  · rw [h1, hb]
    rfl
  · rw [h1, hb]
    rfl

/-- Witness for C6, realizing the claim's concrete scenario: with the logger
behavior (which refuses the edit only on the empty string), the trampoline
answers `NO` while the view holds the empty string and `YES` once it holds
`x`. -/
theorem should_begin_tramp_witness :
    text_should_begin_editing_tramp fixWorld 0 = some NO
    ∧ text_should_begin_editing_tramp fixWorldX 0 = some YES := by
  constructor
  · exact (should_begin_tramp_matches_delegate loggerSpec fixWorld 0 0
      (NativeObject.mk 0 [(TEXTVIEW_DELEGATE_PTR, 0)] "" none)
      (DelegateRecord.mk loggerSpec [TextView.mk true 0 none 0] [])
      rfl rfl rfl rfl).2.2 rfl
  · exact (should_begin_tramp_matches_delegate loggerSpec fixWorldX 0 0
      (NativeObject.mk 0 [(TEXTVIEW_DELEGATE_PTR, 0)] "x" none)
      (DelegateRecord.mk loggerSpec [TextView.mk true 0 none 0] [])
      rfl rfl rfl rfl).2.1 rfl

/-- Claim C8 counterexample: a delegate whose `text_did_change` callback
fails refutes the claim that a failure is swallowed — in the concrete boom
world the trampoline's outcome is the propagated failure, not a normal
continuation. -/
theorem text_did_change_tramp_propagates_failure :
    text_did_change_tramp boomWorld 0 = some (Except.error "boom") := rfl

/-- Helper: the two possible outcomes of the notification trampoline once
the slot chain resolves — record-and-continue on a normal return, propagate
on a failure. -/
theorem tramp_notification_outcomes (w : World) (this addr : Nat)
    (o : NativeObject) (r : DelegateRecord)
    (ho : w.objects.get? this = some o)
    (hslot : o.get_ivar TEXTVIEW_DELEGATE_PTR = some addr)
    (hr : w.delegateAt addr = some r) :
    (∀ u, r.spec.text_did_change o.strValue = Except.ok u →
      text_did_change_tramp w this
        = some (Except.ok (w.modifyDelegate addr
            (fun rr => { rr with textChanges := rr.textChanges ++ [o.strValue] }))))
    ∧ (∀ msg, r.spec.text_did_change o.strValue = Except.error msg →
      text_did_change_tramp w this = some (Except.error msg)) := by
  have hload : load w this TEXTVIEW_DELEGATE_PTR = some addr := by
    unfold load
    rw [ho]
    simp only [Option.bind_eq_bind, Option.some_bind]
    exact hslot
  have h1 := text_did_change_tramp_eq w this addr r o hload hr ho
  constructor
  · intro u hu
    rw [h1, hu]
  · intro msg hmsg
    rw [h1, hmsg]

/-- Claim C8 (amended): the notification trampoline produces no return
value; when the behavior's `text_did_change` returns normally the invocation
is recorded and execution continues, but when the behavior fails the failure
is not caught by the trampoline — it propagates out across the native call
boundary instead of being swallowed. -/
theorem text_did_change_tramp_behavior (w : World) (this addr : Nat)
    (o : NativeObject) (r : DelegateRecord)
    (ho : w.objects.get? this = some o)
    (hslot : o.get_ivar TEXTVIEW_DELEGATE_PTR = some addr)
    (hr : w.delegateAt addr = some r) :
    (∀ u, r.spec.text_did_change o.strValue = Except.ok u →
      text_did_change_tramp w this
        = some (Except.ok (w.modifyDelegate addr
            (fun rr => { rr with textChanges := rr.textChanges ++ [o.strValue] }))))
    ∧ (∀ msg, r.spec.text_did_change o.strValue = Except.error msg →
      text_did_change_tramp w this = some (Except.error msg)) :=
  tramp_notification_outcomes w this addr o r ho hslot hr

/-- Witness for the amended C8: both branches are realized, on the logger
world (normal return, recorded) and on the boom world (failure propagated). -/
theorem text_did_change_tramp_behavior_witness :
    text_did_change_tramp fixWorld 0 = some (Except.ok fixWorldLogged)
    ∧ text_did_change_tramp boomWorld 0 = some (Except.error "boom") :=
  ⟨(text_did_change_tramp_behavior fixWorld 0 0
      (NativeObject.mk 0 [(TEXTVIEW_DELEGATE_PTR, 0)] "" none)
      (DelegateRecord.mk loggerSpec [TextView.mk true 0 none 0] [])
      rfl rfl rfl).1 () rfl,
   (text_did_change_tramp_behavior boomWorld 0 0
      (NativeObject.mk 0 [(TEXTVIEW_DELEGATE_PTR, 0)] "" none)
      (DelegateRecord.mk boomSpec [TextView.mk true 0 none 0] [])
      rfl rfl rfl).2 "boom" rfl⟩

/-- Dropping the freshly constructed owning wrapper after the view was
attached to a superview: the view is detached and the boxed delegate is
freed; nothing else changes. -/
theorem drop_owner_after_attach (rt : Runtime) (l : List NativeObject)
    (dl : List (Option DelegateRecord)) (ob : NativeObject)
    (dr : Option DelegateRecord) (sv : Nat) :
    TextView.drop (TextView.mk false l.length (some dl.length) l.length)
        ((World.mk rt (l ++ [ob]) (dl ++ [dr])).setSuperview l.length sv)
      = World.mk rt (l ++ [{ ob with superview := none }]) (dl ++ [none]) := by
  unfold World.setSuperview World.modifyObject
  rw [list_get_concat]
  show (TextView.mk false l.length (some dl.length) l.length).drop
      (World.mk rt ((l ++ [ob]).set l.length { ob with superview := some sv }) (dl ++ [dr]))
    = World.mk rt (l ++ [{ ob with superview := none }]) (dl ++ [none])
  rw [list_set_concat]
  show World.freeDelegate (TextView.remove_from_superview
      (TextView.mk false l.length (some dl.length) l.length)
      (World.mk rt (l ++ [{ ob with superview := some sv }]) (dl ++ [dr]))) dl.length
    = World.mk rt (l ++ [{ ob with superview := none }]) (dl ++ [none])
  unfold TextView.remove_from_superview World.modifyObject
  rw [list_get_concat]
  show World.freeDelegate
      (World.mk rt ((l ++ [{ ob with superview := some sv }]).set l.length
        { ob with superview := none }) (dl ++ [dr])) dl.length
    = World.mk rt (l ++ [{ ob with superview := none }]) (dl ++ [none])
  rw [list_set_concat]
  show World.mk rt (l ++ [{ ob with superview := none }]) ((dl ++ [dr]).set dl.length none)
    = World.mk rt (l ++ [{ ob with superview := none }]) (dl ++ [none])
  rw [list_set_concat]

/-- Claim C9: dropping a wrapper marked as a non-owning handle (a handle
clone carries no stored delegate) performs no release or cleanup at all —
the world is literally unchanged, so the originating native object remains,
stays in its superview, and its CallbackSlot is untouched; dropping the
owning, non-handle wrapper removes the view from its superview and releases
its stored delegate. -/
theorem drop_handle_noop_drop_owner_releases (tv : TextView) (w : World)
    (hh : tv.is_handle = true) (hd : tv.delegate = none) :
    TextView.drop tv w = w
    ∧ (∀ (src : TextView) (w2 : World),
        TextView.drop (TextView.clone_as_handle src) w2 = w2)
    ∧ (∀ (d : DelegateSpec) (w0 : World) (sv : Nat),
        (((TextView.drop (TextView.with_delegate d w0).1
              ((TextView.with_delegate d w0).2.setSuperview
                (TextView.with_delegate d w0).1.objc sv)).objects.get?
            (TextView.with_delegate d w0).1.objc).map NativeObject.superview
          = some none)
        ∧ ((TextView.with_delegate d w0).1.delegate.bind
            (fun a => (TextView.drop (TextView.with_delegate d w0).1
                ((TextView.with_delegate d w0).2.setSuperview
                  (TextView.with_delegate d w0).1.objc sv)).delegates.get? a))
          = some none) := by
  refine ⟨?_, ?_, ?_⟩
  · unfold TextView.drop
    rw [hh, hd]
    rfl
  · intro src w2
    unfold TextView.drop TextView.clone_as_handle
    rfl
  · intro d w0 sv
    simp only [with_delegate_eq]
    rw [drop_owner_after_attach]
    constructor
    · rw [list_get_concat, Option.map_some']
    · rw [Option.some_bind, list_get_concat]

/-- Witness for C9 at a concrete handle and world. -/
theorem drop_handle_noop_witness :
    (TextView.mk true 0 none 0).is_handle = true
    ∧ (TextView.mk true 0 none 0).delegate = none
    ∧ TextView.drop (TextView.mk true 0 none 0) fixWorld = fixWorld :=
  ⟨rfl, rfl, (drop_handle_noop_drop_owner_releases (TextView.mk true 0 none 0)
      fixWorld rfl rfl).1⟩

/-- Claim C5: when views A and B are instantiated in sequence with the same
behavior-type name, the host-runtime class declaration runs only once across
both constructions, each view's wrapper owns a distinct delegate address,
and after the user edits A's text, firing the text-changed trampoline on A
records the notification on A's delegate alone — B's delegate record is
untouched and has received no text change. -/
theorem same_name_views_route_to_own_delegate
    (dA dB : DelegateSpec) (w wA wB : World) (A B : TextView)
    (hname : dB.NAME = dA.NAME)
    (hfresh : w.rt.findClass dA.NAME = none)
    (hA : TextView.with_delegate dA w = (A, wA))
    (hB : TextView.with_delegate dB wA = (B, wB))
    (s : String) (hok : dA.text_did_change s = Except.ok ()) :
    wB.rt.classes.length = w.rt.classes.length + 1
    ∧ A.delegate = some w.delegates.length
    ∧ B.delegate = some (w.delegates.length + 1)
    ∧ A.delegate ≠ B.delegate
    ∧ ∃ wT, text_did_change_tramp (wB.setStrValue A.objc s) A.objc
          = some (Except.ok wT)
        ∧ (wT.delegateAt w.delegates.length).map DelegateRecord.textChanges
          = some [s]
        ∧ wT.delegateAt (w.delegates.length + 1)
          = wB.delegateAt (w.delegates.length + 1)
        ∧ (wB.delegateAt (w.delegates.length + 1)).map DelegateRecord.textChanges
          = some [] := by
  have hregA := register_with_delegate_fresh w dA hfresh
  have htokA : (register_textview_class_with_delegate w dA).1 = w.rt.classes.length := by
    rw [hregA]
  have hrtA : (register_textview_class_with_delegate w dA).2.rt
      = Runtime.mk (w.rt.classes
          ++ [RTClass.mk dA.NAME "NSTextView" [TEXTVIEW_DELEGATE_PTR, BACKGROUND_COLOR]
                [("textDidChange:", Trampoline.textDidChange)]])
          w.rt.textviewOnce := by
    rw [hregA]
  rw [with_delegate_eq, htokA, hrtA] at hA
  rw [Prod.mk.injEq] at hA
  obtain ⟨hA1, hA2⟩ := hA
  subst hA1
  subst hA2
  have hfoundB : (Runtime.mk (w.rt.classes
      ++ [RTClass.mk dA.NAME "NSTextView" [TEXTVIEW_DELEGATE_PTR, BACKGROUND_COLOR]
            [("textDidChange:", Trampoline.textDidChange)]]) w.rt.textviewOnce).findClass dB.NAME
      = some w.rt.classes.length := by
    unfold Runtime.findClass
    rw [hname]
    exact findClassIdx_concat_self w.rt.classes
      (RTClass.mk dA.NAME "NSTextView" [TEXTVIEW_DELEGATE_PTR, BACKGROUND_COLOR]
        [("textDidChange:", Trampoline.textDidChange)]) hfresh
  have hregB := register_with_delegate_existing
    (World.mk (Runtime.mk (w.rt.classes
        ++ [RTClass.mk dA.NAME "NSTextView" [TEXTVIEW_DELEGATE_PTR, BACKGROUND_COLOR]
              [("textDidChange:", Trampoline.textDidChange)]]) w.rt.textviewOnce)
      (w.objects ++ [NativeObject.mk w.rt.classes.length
        [(TEXTVIEW_DELEGATE_PTR, w.delegates.length)] "" none])
      (w.delegates ++ [some (DelegateRecord.mk dA
        [TextView.mk true w.objects.length none w.objects.length] [])]))
    dB w.rt.classes.length hfoundB
  have hBlit : TextView.with_delegate dB
      (World.mk (Runtime.mk (w.rt.classes
          ++ [RTClass.mk dA.NAME "NSTextView" [TEXTVIEW_DELEGATE_PTR, BACKGROUND_COLOR]
                [("textDidChange:", Trampoline.textDidChange)]]) w.rt.textviewOnce)
        (w.objects ++ [NativeObject.mk w.rt.classes.length
          [(TEXTVIEW_DELEGATE_PTR, w.delegates.length)] "" none])
        (w.delegates ++ [some (DelegateRecord.mk dA
          [TextView.mk true w.objects.length none w.objects.length] [])]))
      = (TextView.mk false (w.objects.length + 1) (some (w.delegates.length + 1))
          (w.objects.length + 1),
         World.mk (Runtime.mk (w.rt.classes
             ++ [RTClass.mk dA.NAME "NSTextView" [TEXTVIEW_DELEGATE_PTR, BACKGROUND_COLOR]
                   [("textDidChange:", Trampoline.textDidChange)]]) w.rt.textviewOnce)
           ((w.objects ++ [NativeObject.mk w.rt.classes.length
               [(TEXTVIEW_DELEGATE_PTR, w.delegates.length)] "" none])
             ++ [NativeObject.mk w.rt.classes.length
               [(TEXTVIEW_DELEGATE_PTR, w.delegates.length + 1)] "" none])
           ((w.delegates ++ [some (DelegateRecord.mk dA
               [TextView.mk true w.objects.length none w.objects.length] [])])
             ++ [some (DelegateRecord.mk dB
               [TextView.mk true (w.objects.length + 1) none (w.objects.length + 1)] [])])) := by
    rw [with_delegate_eq, hregB]
    simp only [List.length_append, List.length_cons, List.length_nil]
  have hB2 := hBlit.symm.trans hB
  rw [Prod.mk.injEq] at hB2
  obtain ⟨hB1, hB3⟩ := hB2
  subst hB1
  subst hB3
  refine ⟨by simp, rfl, rfl, ?_, ?_⟩
  · intro hcon
    rw [Option.some_inj] at hcon
    omega
  rw [setStrValue_concat2_left]
  have ho : ((w.objects ++ [NativeObject.mk w.rt.classes.length
        [(TEXTVIEW_DELEGATE_PTR, w.delegates.length)] s none] : List NativeObject)
        ++ [NativeObject.mk w.rt.classes.length
          [(TEXTVIEW_DELEGATE_PTR, w.delegates.length + 1)] "" none]).get? w.objects.length
      = some (NativeObject.mk w.rt.classes.length
          [(TEXTVIEW_DELEGATE_PTR, w.delegates.length)] s none) :=
    list_get_concat2_left _ _ _
  have happly := (tramp_notification_outcomes
    (World.mk (Runtime.mk (w.rt.classes
        ++ [RTClass.mk dA.NAME "NSTextView" [TEXTVIEW_DELEGATE_PTR, BACKGROUND_COLOR]
              [("textDidChange:", Trampoline.textDidChange)]]) w.rt.textviewOnce)
      ((w.objects ++ [NativeObject.mk w.rt.classes.length
          [(TEXTVIEW_DELEGATE_PTR, w.delegates.length)] s none])
        ++ [NativeObject.mk w.rt.classes.length
          [(TEXTVIEW_DELEGATE_PTR, w.delegates.length + 1)] "" none])
      ((w.delegates ++ [some (DelegateRecord.mk dA
          [TextView.mk true w.objects.length none w.objects.length] [])])
        ++ [some (DelegateRecord.mk dB
          [TextView.mk true (w.objects.length + 1) none (w.objects.length + 1)] [])]))
    w.objects.length w.delegates.length
    (NativeObject.mk w.rt.classes.length
      [(TEXTVIEW_DELEGATE_PTR, w.delegates.length)] s none)
    (DelegateRecord.mk dA [TextView.mk true w.objects.length none w.objects.length] [])
    ho rfl
    (delegateAt_concat2_left
      (Runtime.mk (w.rt.classes
        ++ [RTClass.mk dA.NAME "NSTextView" [TEXTVIEW_DELEGATE_PTR, BACKGROUND_COLOR]
              [("textDidChange:", Trampoline.textDidChange)]]) w.rt.textviewOnce)
      ((w.objects ++ [NativeObject.mk w.rt.classes.length
          [(TEXTVIEW_DELEGATE_PTR, w.delegates.length)] s none])
        ++ [NativeObject.mk w.rt.classes.length
          [(TEXTVIEW_DELEGATE_PTR, w.delegates.length + 1)] "" none])
      w.delegates
      (some (DelegateRecord.mk dA
        [TextView.mk true w.objects.length none w.objects.length] []))
      (some (DelegateRecord.mk dB
        [TextView.mk true (w.objects.length + 1) none (w.objects.length + 1)] [])))).1 () hok
  refine ⟨_, happly, ?_, ?_, ?_⟩
  · rw [modifyDelegate_concat2_left, delegateAt_concat2_left]
    rfl
  · rw [modifyDelegate_concat2_left, delegateAt_concat2, delegateAt_concat2]
  · rw [delegateAt_concat2]
    rfl

/-- Witness for C5 at the concrete scenario of the spec: two logger views
built in sequence from the empty world, then the user types `hi` into the
first one. -/
theorem same_name_views_witness :
    fixWorld2.rt.classes.length = emptyWorld.rt.classes.length + 1
    ∧ fixView.delegate = some emptyWorld.delegates.length
    ∧ fixView2.delegate = some (emptyWorld.delegates.length + 1)
    ∧ fixView.delegate ≠ fixView2.delegate
    ∧ ∃ wT, text_did_change_tramp (fixWorld2.setStrValue fixView.objc "hi") fixView.objc
          = some (Except.ok wT)
        ∧ (wT.delegateAt emptyWorld.delegates.length).map DelegateRecord.textChanges
          = some ["hi"]
        ∧ wT.delegateAt (emptyWorld.delegates.length + 1)
          = fixWorld2.delegateAt (emptyWorld.delegates.length + 1)
        ∧ (fixWorld2.delegateAt (emptyWorld.delegates.length + 1)).map
            DelegateRecord.textChanges = some [] :=
  same_name_views_route_to_own_delegate loggerSpec loggerSpec emptyWorld
    fixWorld fixWorld2 fixView fixView2 rfl rfl rfl rfl "hi" rfl

end Cacao
